import Mathlib

/-!
Verification of the daily-report orchestration script (src/index.js) against its
natural-language specification.

The script is embedded shallowly:

- JavaScript values that flow through the pipeline (workflow outputs, error
  payloads) are modelled by the inductive type JValue, together with the
  JavaScript notions the source relies on: truthiness, property lookup,
  JSON.stringify serialization and template-literal string conversion.
- Ambient time (new Date()) is modelled by the Clock structure; the two
  tr-TR locale renderings used by the source are modelled explicitly.
- Each network effect is passed in as an explicit collaborator: the initial
  workflows/run POST as a value of type Except JsErr StartResponse, the n-th
  status GET as polls n, and the n-th sendMail call of one pipeline
  invocation as send n.  Numbers of fetches and sleeps are recorded in
  traces so that claims about how many network calls happen are statable.
- A JavaScript function that can throw is embedded with an Except error
  channel; runDailyReport catches everything internally, which in the
  embedding shows up as every code path producing Except.ok.
-/

/-! ### JavaScript values -/

mutual

/-- A JSON-like JavaScript value as it flows through the script.  Absent
(undefined) object properties are modelled by omitting the key.  Numeric
values are modelled as integers. -/
inductive JValue where
  | null
  | bool (b : Bool)
  | num (n : Int)
  | str (s : String)
  | obj (fields : JFields)
  | arr (elems : JElems)

/-- Ordered field list of a JavaScript object literal. -/
inductive JFields where
  | nil
  | cons (key : String) (value : JValue) (rest : JFields)

/-- Element list of a JavaScript array. -/
inductive JElems where
  | nil
  | cons (head : JValue) (rest : JElems)

end

/-- JavaScript truthiness.  Every object is truthy, including the empty
object; the empty string, zero and null are falsy. -/
def JValue.truthy : JValue → Bool
  | .null => false
  | .bool b => b
  | .num n => n != 0
  | .str s => !s.isEmpty
  | .obj _ => true
  | .arr _ => true

/-- First binding of a key in an object field list. -/
def JFields.lookup : JFields → String → Option JValue
  | .nil, _ => none
  | .cons k v rest, key => if k = key then some v else rest.lookup key

/-- Property access v.key: defined on objects, undefined (none) elsewhere. -/
def JValue.get : JValue → String → Option JValue
  | .obj fs, key => fs.lookup key
  | _, _ => none

mutual

/-- String(v), as performed by template-literal interpolation. -/
def jsToString : JValue → String
  | .null => "null"
  | .bool b => if b then "true" else "false"
  | .num n => toString n
  | .str s => s
  | .obj _ => "[object Object]"
  | .arr es => jsToStringElems es

/-- Array.prototype.toString joins elements with commas; null elements
render as the empty string. -/
def jsToStringElems : JElems → String
  | .nil => ""
  | .cons .null .nil => ""
  | .cons v .nil => jsToString v
  | .cons .null (.cons v2 r) => "," ++ jsToStringElems (.cons v2 r)
  | .cons v (.cons v2 r) => jsToString v ++ "," ++ jsToStringElems (.cons v2 r)

end

/-- A run of n space characters, for JSON pretty-printing indentation. -/
def spacesN (n : Nat) : String := String.mk (List.replicate n ' ')

/-- JSON string escaping for the common escape characters. -/
def escapeJsonChar (c : Char) : String :=
  if c = '"' then "\\\""
  else if c = '\\' then "\\\\"
  else if c = '\n' then "\\n"
  else if c = '\r' then "\\r"
  else if c = '\t' then "\\t"
  else String.singleton c

/-- A JSON string literal with surrounding quotes. -/
def quoteJson (s : String) : String :=
  "\"" ++ String.join (s.data.map escapeJsonChar) ++ "\""

mutual

/-- JSON.stringify.  With pretty = true this is JSON.stringify(v, null, 2)
as used at line 142 of src/index.js; with pretty = false it is the compact
JSON.stringify(v) used at line 287.  depth is the current nesting depth. -/
def stringifyVal (pretty : Bool) (depth : Nat) : JValue → String
  | .null => "null"
  | .bool b => if b then "true" else "false"
  | .num n => toString n
  | .str s => quoteJson s
  | .obj .nil => "\x7b\x7d"
  | .obj (.cons k v rest) =>
      if pretty then
        "\x7b\n" ++ stringifyFields pretty (depth + 1) (.cons k v rest) ++ "\n"
          ++ spacesN (2 * depth) ++ "\x7d"
      else
        "\x7b" ++ stringifyFields pretty (depth + 1) (.cons k v rest) ++ "\x7d"
  | .arr .nil => "[]"
  | .arr (.cons v rest) =>
      if pretty then
        "[\n" ++ stringifyElems pretty (depth + 1) (.cons v rest) ++ "\n"
          ++ spacesN (2 * depth) ++ "]"
      else
        "[" ++ stringifyElems pretty (depth + 1) (.cons v rest) ++ "]"

/-- Serialization of the fields of a nonempty object. -/
def stringifyFields (pretty : Bool) (depth : Nat) : JFields → String
  | .nil => ""
  | .cons k v .nil =>
      (if pretty then spacesN (2 * depth) else "") ++ quoteJson k
        ++ (if pretty then ": " else ":") ++ stringifyVal pretty depth v
  | .cons k v (.cons k2 v2 r) =>
      (if pretty then spacesN (2 * depth) else "") ++ quoteJson k
        ++ (if pretty then ": " else ":") ++ stringifyVal pretty depth v
        ++ (if pretty then ",\n" else ",") ++ stringifyFields pretty depth (.cons k2 v2 r)

/-- Serialization of the elements of a nonempty array. -/
def stringifyElems (pretty : Bool) (depth : Nat) : JElems → String
  | .nil => ""
  | .cons v .nil =>
      (if pretty then spacesN (2 * depth) else "") ++ stringifyVal pretty depth v
  | .cons v (.cons v2 r) =>
      (if pretty then spacesN (2 * depth) else "") ++ stringifyVal pretty depth v
        ++ (if pretty then ",\n" else ",") ++ stringifyElems pretty depth (.cons v2 r)

end

/-! ### Ambient time and locale rendering -/

/-- The ambient wall clock read by new Date() during one pipeline
invocation. -/
structure Clock where
  day : Nat
  month : Nat
  year : Nat
  hour : Nat
  minute : Nat
  second : Nat

/-- Turkish month names, as produced by the tr-TR locale with the long
month option. -/
def trMonthName : Nat → String
  | 1 => "Ocak"
  | 2 => "Şubat"
  | 3 => "Mart"
  | 4 => "Nisan"
  | 5 => "Mayıs"
  | 6 => "Haziran"
  | 7 => "Temmuz"
  | 8 => "Ağustos"
  | 9 => "Eylül"
  | 10 => "Ekim"
  | 11 => "Kasım"
  | 12 => "Aralık"
  | _ => ""

/-- toLocaleDateString with tr-TR and numeric year, long month, numeric
day, as used for the report title at line 124 of src/index.js. -/
def trDateLong (c : Clock) : String :=
  toString c.day ++ " " ++ trMonthName c.month ++ " " ++ toString c.year

/-- Two-digit zero padding. -/
def pad2 (n : Nat) : String := if n < 10 then "0" ++ toString n else toString n

/-- Plain toLocaleDateString with tr-TR. -/
def trDateShort (c : Clock) : String :=
  pad2 c.day ++ "." ++ pad2 c.month ++ "." ++ toString c.year

/-- toLocaleString with tr-TR: date and time, used in the error document
at line 285 of src/index.js. -/
def trDateTime (c : Clock) : String :=
  trDateShort c ++ " " ++ pad2 c.hour ++ ":" ++ pad2 c.minute ++ ":" ++ pad2 c.second

/-! ### JavaScript errors -/

/-- An error value as caught by the orchestrator: its message and, for
axios transport errors, the optional response payload
(error.response.data). -/
structure JsErr where
  message : String
  responseData : Option JValue

/-! ### formatReport, src/index.js lines 120 to 215 -/

/-- Line 122: const output = workflowOutput.outputs or else workflowOutput
(a truthiness disjunction). -/
def extractOutput (workflowOutput : JValue) : JValue :=
  match workflowOutput.get "outputs" with
  | some v => if v.truthy then v else workflowOutput
  | none => workflowOutput

/-- typeof output is object and output is not null (lines 132). -/
def isObjectNotNull : JValue → Bool
  | .obj _ => true
  | .arr _ => true
  | _ => false

/-- The key lookup used by the priority chain at lines 134 to 139: the
property value when it exists and is truthy, none otherwise. -/
def getTruthy (v : JValue) (key : String) : Option JValue :=
  match v.get key with
  | some x => if x.truthy then some x else none
  | none => none

/-- Lines 131 to 148: the report content string.  For objects the keys
text, report, content are tried in order under truthiness, with a
pre-formatted JSON dump of the whole output as fallback; strings pass
through; anything else is String-converted. -/
def reportContentOf (output : JValue) : String :=
  if isObjectNotNull output then
    match getTruthy output "text" with
    | some t => jsToString t
    | none =>
      match getTruthy output "report" with
      | some r => jsToString r
      | none =>
        match getTruthy output "content" with
        | some cv => jsToString cv
        | none => "<pre>" ++ stringifyVal true 0 output ++ "</pre>"
  else
    match output with
    | .str s => s
    | v => jsToString v

/-- Template literal of lines 150 to 212, up to the date interpolation. -/
def htmlPartA : String :=
  "\n    <!DOCTYPE html>\n    <html>\n    <head>\n      <meta charset=\"UTF-8\">\n      <style>\n        body \x7b\n          font-family: Arial, sans-serif;\n          line-height: 1.6;\n          color: #333;\n          max-width: 800px;\n          margin: 0 auto;\n          padding: 20px;\n        \x7d\n        .header \x7b\n          background-color: #f4f4f4;\n          padding: 20px;\n          border-radius: 5px;\n          margin-bottom: 20px;\n        \x7d\n        .content \x7b\n          background-color: #ffffff;\n          padding: 20px;\n          border: 1px solid #ddd;\n          border-radius: 5px;\n        \x7d\n        h1 \x7b\n          color: #2c3e50;\n        \x7d\n        h2 \x7b\n          color: #34495e;\n          border-bottom: 2px solid #ecf0f1;\n          padding-bottom: 10px;\n        \x7d\n        pre \x7b\n          background-color: #f5f5f5;\n          padding: 10px;\n          border-radius: 3px;\n          overflow-x: auto;\n        \x7d\n        .footer \x7b\n          margin-top: 30px;\n          padding-top: 20px;\n          border-top: 1px solid #eee;\n          font-size: 12px;\n          color: #777;\n        \x7d\n      </style>\n    </head>\n    <body>\n      <div class=\"header\">\n        <h1>Günlük Rapor - "

/-- Between the date and the report content interpolations. -/
def htmlPartB : String :=
  "</h1>\n      </div>\n      <div class=\"content\">\n        "

/-- Between the report content and the year interpolations. -/
def htmlPartC : String :=
  "\n      </div>\n      <div class=\"footer\">\n        <p>Bu rapor otomatik olarak oluşturulmuştur.</p>\n        <p>© "

/-- After the company name interpolation. -/
def htmlPartD : String :=
  "</p>\n      </div>\n    </body>\n    </html>\n  "

/-- Line 208: process.env.COMPANY_NAME with a truthiness default. -/
def companyDisplay : Option String → String
  | some s => if s = "" then "Şirketiniz" else s
  | none => "Şirketiniz"

/-- The full document template with its four interpolation slots. -/
def htmlDoc (date content year company : String) : String :=
  htmlPartA ++ date ++ htmlPartB ++ content ++ htmlPartC ++ year ++ " " ++ company ++ htmlPartD

/-- formatReport, lines 120 to 215.  Reads the ambient clock for the date
in the title and the year in the footer, and the COMPANY_NAME environment
entry; performs no other effect. -/
def formatReport (c : Clock) (companyName : Option String) (workflowOutput : JValue) : String :=
  htmlDoc (trDateLong c) (reportContentOf (extractOutput workflowOutput))
    (toString c.year) (companyDisplay companyName)

/-! ### waitForWorkflowCompletion, src/index.js lines 80 to 117 -/

/-- Body of the status GET response (line 85): the fields the source
reads. -/
structure PollResponse where
  status : Option String
  outputs : Option JValue
  elapsed_time : Option Int
  total_tokens : Option Int
  error : Option String

/-- The success value returned at lines 98 to 103. -/
structure WorkflowResult where
  outputs : Option JValue
  status : String
  elapsed_time : Option Int
  total_tokens : Option Int

/-- How waitForWorkflowCompletion ends: a null return for a missing run
id, the success record, the thrown failed-or-stopped error, a rethrown
transport error from the status fetch, or the thrown timeout error. -/
inductive WaitOutcome where
  | noRunId
  | success (result : WorkflowResult)
  | failedStopped (message : String)
  | transport (e : JsErr)
  | timeout

/-- Result of the wait together with how many status fetches were issued
and how many inter-poll sleeps happened. -/
structure WaitTrace where
  outcome : WaitOutcome
  fetches : Nat
  sleeps : Nat

/-- The message of the error thrown at line 105, including the truthiness
default for the error field. -/
def failMsg (resp : PollResponse) : String :=
  "Workflow " ++ resp.status.getD "undefined" ++ ": " ++
    (match resp.error with
     | some s => if s = "" then "Unknown error" else s
     | none => "Unknown error")

/-- The for loop of lines 83 to 114.  polls i is the response of the
status fetch on attempt i; i is the current attempt index, remaining the
attempts left. -/
def pollLoop (polls : Nat → Except JsErr PollResponse) (i : Nat) (remaining : Nat)
    (fetches : Nat) (sleeps : Nat) : WaitTrace :=
  match remaining with
  | 0 => ⟨.timeout, fetches, sleeps⟩
  | r + 1 =>
    match polls i with
    | .error e => ⟨.transport e, fetches + 1, sleeps⟩
    | .ok resp =>
      if resp.status = some "succeeded" then
        ⟨.success ⟨resp.outputs, "succeeded", resp.elapsed_time, resp.total_tokens⟩,
          fetches + 1, sleeps⟩
      else if resp.status = some "failed" ∨ resp.status = some "stopped" then
        ⟨.failedStopped (failMsg resp), fetches + 1, sleeps⟩
      else
        pollLoop polls (i + 1) r (fetches + 1) (sleeps + 1)

/-- waitForWorkflowCompletion, lines 80 to 117.  The run id is an Option
to cover the undefined case; line 81 short-circuits on falsy ids.  The
source defaults maxAttempts to 30; the caller in runDailyReport uses that
default. -/
def waitForWorkflowCompletion (polls : Nat → Except JsErr PollResponse)
    (workflowRunId : Option String) (maxAttempts : Nat) : WaitTrace :=
  match workflowRunId with
  | none => ⟨.noRunId, 0, 0⟩
  | some rid => if rid = "" then ⟨.noRunId, 0, 0⟩ else pollLoop polls 0 maxAttempts 0 0

/-! ### triggerDifyWorkflow, src/index.js lines 29 to 77 -/

/-- The data sub-object of the run POST response (blocking mode). -/
structure StartData where
  status : Option String
  outputs : Option JValue

/-- The body of the run POST response: the fields the source reads. -/
structure StartResponse where
  workflow_run_id : Option String
  task_id : Option String
  data : Option StartData

/-- The value returned by triggerDifyWorkflow: the blocking-mode record of
lines 61 to 65 or the pending record of lines 69 to 72. -/
inductive TriggerResult where
  | blocking (workflow_run_id : Option String) (outputs : Option JValue)
  | pending (workflow_run_id : Option String) (task_id : Option String)

/-- The status property of the returned record. -/
def TriggerResult.status : TriggerResult → Option String
  | .blocking _ _ => some "succeeded"
  | .pending _ _ => none

/-- The outputs property of the returned record. -/
def TriggerResult.outputs : TriggerResult → Option JValue
  | .blocking _ o => o
  | .pending _ _ => none

/-- The run id property of the returned record. -/
def TriggerResult.runId : TriggerResult → Option String
  | .blocking rid _ => rid
  | .pending rid _ => rid

/-- Prepend an object field when the value is present. -/
def optField (k : String) (v : Option JValue) (rest : JFields) : JFields :=
  match v with
  | some x => .cons k x rest
  | none => rest

/-- The returned record as the JavaScript object the formatter later
receives, with fields in source order and undefined fields omitted. -/
def TriggerResult.toJValue : TriggerResult → JValue
  | .blocking rid o =>
      .obj (optField "workflow_run_id" (rid.map JValue.str)
        (optField "outputs" o (.cons "status" (.str "succeeded") .nil)))
  | .pending rid tid =>
      .obj (optField "workflow_run_id" (rid.map JValue.str)
        (optField "task_id" (tid.map JValue.str) .nil))

/-- Lines 60 to 72: classify the POST response.  The branch at line 60
requires a truthy data object whose status is the string succeeded. -/
def triggerDifyWorkflow (resp : StartResponse) : TriggerResult :=
  match resp.data with
  | some d =>
      if d.status = some "succeeded" then .blocking resp.workflow_run_id d.outputs
      else .pending resp.workflow_run_id resp.task_id
  | none => .pending resp.workflow_run_id resp.task_id

/-- Truthiness of an optional value (absent is falsy). -/
def optTruthy : Option JValue → Bool
  | some v => v.truthy
  | none => false

/-- Truthiness of an optional string (absent and empty are falsy). -/
def optStrTruthy : Option String → Bool
  | some s => !s.isEmpty
  | none => false

/-- The result as the formatter input for the polling path. -/
def WorkflowResult.toJValue (r : WorkflowResult) : JValue :=
  .obj (optField "outputs" r.outputs
    (.cons "status" (.str r.status)
      (optField "elapsed_time" (r.elapsed_time.map JValue.num)
        (optField "total_tokens" (r.total_tokens.map JValue.num) .nil))))

/-! ### The error document, src/index.js lines 273 to 291 -/

/-- Error template up to the date interpolation. -/
def errPartA : String :=
  "\n        <!DOCTYPE html>\n        <html>\n        <head>\n          <meta charset=\"UTF-8\">\n          <style>\n            body \x7b font-family: Arial, sans-serif; padding: 20px; \x7d\n            .error \x7b color: #d32f2f; \x7d\n          </style>\n        </head>\n        <body>\n          <h2 class=\"error\">Hata: Günlük Rapor Oluşturulamadı</h2>\n          <p><strong>Tarih:</strong> "

/-- Between the date and the message interpolations. -/
def errPartB : String :=
  "</p>\n          <p><strong>Hata Mesajı:</strong> "

/-- Between the message and the details interpolations. -/
def errPartC : String :=
  "</p>\n          <p><strong>Detaylar:</strong> "

/-- After the details interpolation. -/
def errPartD : String :=
  "</p>\n          <p>Lütfen sistem yöneticisi ile iletişime geçin.</p>\n        </body>\n        </html>\n      "

/-- Line 287: the details slot is the compact JSON of the response payload
when that payload is truthy, N/A otherwise. -/
def detailsOf (e : JsErr) : String :=
  match e.responseData with
  | some v => if v.truthy then stringifyVal false 0 v else "N/A"
  | none => "N/A"

/-- The error notification document of lines 273 to 291. -/
def errorHtml (c : Clock) (e : JsErr) : String :=
  errPartA ++ trDateTime c ++ errPartB ++ e.message ++ errPartC ++ detailsOf e ++ errPartD

/-! ### runDailyReport, src/index.js lines 237 to 297 -/

/-- Observable behaviour of one pipeline invocation: the bodies handed to
the mail transport in order, how many status fetches were issued, the
error the outer catch received (if any), and the failure of the error
notification itself (if any, line 293). -/
structure PipelineTrace where
  notifierCalls : List String
  pollFetches : Nat
  caughtError : Option JsErr
  errorEmailFailure : Option JsErr

/-- Steps 3 and 4 of the try block (lines 262 to 265): format the final
output and attempt the report email; send 0 is the outcome of that first
sendMail call. -/
def sendStep (c : Clock) (companyName : Option String) (send : Nat → Except JsErr Unit)
    (finalOutput : JValue) (fetches : Nat) : List String × Nat × Option JsErr :=
  let html := formatReport c companyName finalOutput
  match send 0 with
  | .ok _ => ([html], fetches, none)
  | .error e => ([html], fetches, some e)

/-- The try block of runDailyReport (lines 240 to 267): emails attempted
so far, status fetches issued, and the error that escaped the block, if
any. -/
def pipelineTry (c : Clock) (companyName : Option String) (start : Except JsErr StartResponse)
    (polls : Nat → Except JsErr PollResponse) (send : Nat → Except JsErr Unit) :
    List String × Nat × Option JsErr :=
  match start with
  | .error e => ([], 0, some e)
  | .ok resp =>
    let wr := triggerDifyWorkflow resp
    if wr.status = some "succeeded" ∧ optTruthy wr.outputs = true then
      sendStep c companyName send wr.toJValue 0
    else if optStrTruthy wr.runId = true then
      let wt := waitForWorkflowCompletion polls wr.runId 30
      match wt.outcome with
      | .success res => sendStep c companyName send res.toJValue wt.fetches
      | .failedStopped msg => ([], wt.fetches, some ⟨msg, none⟩)
      | .timeout => ([], wt.fetches, some ⟨"Workflow timeout - exceeded maximum attempts", none⟩)
      | .transport e => ([], wt.fetches, some e)
      | .noRunId =>
        ([], wt.fetches, some ⟨"Cannot read properties of null (reading 'outputs')", none⟩)
    else ([], 0, some ⟨"Invalid workflow response - no outputs or run ID", none⟩)

/-- The catch block of lines 268 to 296: build the error document, attempt
one notification (the next sendMail call), and swallow a failure of that
attempt, recording it only. -/
def handleCatch (c : Clock) (send : Nat → Except JsErr Unit)
    (calls : List String) (fetches : Nat) (e : JsErr) : PipelineTrace :=
  match send calls.length with
  | .ok _ => ⟨calls ++ [errorHtml c e], fetches, some e, none⟩
  | .error e2 => ⟨calls ++ [errorHtml c e], fetches, some e, some e2⟩

/-- runDailyReport, lines 237 to 297.  The Except layer is the promise
rejection channel of the async function; every path of the source returns
normally, which the theorems below make explicit. -/
def runDailyReport (c : Clock) (companyName : Option String) (start : Except JsErr StartResponse)
    (polls : Nat → Except JsErr PollResponse) (send : Nat → Except JsErr Unit) :
    Except JsErr PipelineTrace :=
  match pipelineTry c companyName start polls send with
  | (calls, fetches, none) => .ok ⟨calls, fetches, none, none⟩
  | (calls, fetches, some e) => .ok (handleCatch c send calls fetches e)

/-! ### The manual trigger endpoint, src/index.js lines 319 to 326 -/

/-- An HTTP response of the express handler. -/
structure HttpResponse where
  status : Nat
  body : String

/-- The POST trigger handler: await runDailyReport; respond 200 on normal
return, 500 with the error message if the awaited promise rejects. -/
def triggerEndpoint (c : Clock) (companyName : Option String) (start : Except JsErr StartResponse)
    (polls : Nat → Except JsErr PollResponse) (send : Nat → Except JsErr Unit) : HttpResponse :=
  match runDailyReport c companyName start polls send with
  | .ok _ => ⟨200, "\x7b\"status\":\"Report sent successfully\"\x7d"⟩
  | .error e => ⟨500, "\x7b\"error\":" ++ quoteJson e.message ++ "\x7d"⟩

/-- Substring containment on strings, via list infixes on the character
data. -/
def containsStr (hay needle : String) : Prop := List.IsInfix needle.data hay.data

/-- A poll response that keeps the loop at lines 83 to 114 going: a
successful fetch whose status is none of the three terminal strings. -/
def nonTerminalPoll (p : Except JsErr PollResponse) : Prop :=
  ∃ resp, p = Except.ok resp ∧ resp.status ≠ some "succeeded" ∧
    resp.status ≠ some "failed" ∧ resp.status ≠ some "stopped"

/-! ### Concrete sample inputs used by the closed witnesses below -/

/-- A fixed wall clock. -/
def sampleClock : Clock := ⟨12, 10, 2025, 6, 0, 0⟩

/-- A status endpoint that always answers running. -/
def pollsRunning : Nat → Except JsErr PollResponse :=
  fun _ => Except.ok ⟨some "running", none, none, none, none⟩

/-- A mail transport that accepts every message. -/
def sendOk : Nat → Except JsErr Unit := fun _ => Except.ok ()

/-- A transport failure of the initial run request. -/
def startFailure : JsErr := ⟨"connect ECONNREFUSED", none⟩

/-- The invalid-response error thrown at line 256. -/
def invalidErr : JsErr := ⟨"Invalid workflow response - no outputs or run ID", none⟩

/-- A blocking-mode succeeded response with absent outputs and no run id. -/
def respNoOutputs : StartResponse := ⟨none, none, some ⟨some "succeeded", none⟩⟩

/-- The trace of the pipeline on respNoOutputs. -/
def traceInvalid : PipelineTrace :=
  ⟨[errorHtml sampleClock invalidErr], 0, some invalidErr, none⟩

/-- The trace of the pipeline when the run request itself fails. -/
def traceStartFailure : PipelineTrace :=
  ⟨[errorHtml sampleClock startFailure], 0, some startFailure, none⟩

/-- A blocking-mode succeeded response with a truthy text output. -/
def respTextHi : StartResponse :=
  ⟨some "r1", none, some ⟨some "succeeded", some (.obj (.cons "text" (.str "hi") .nil))⟩⟩

/-- The trace of the pipeline on respTextHi. -/
def traceTextHi : PipelineTrace :=
  ⟨[formatReport sampleClock none (triggerDifyWorkflow respTextHi).toJValue], 0, none, none⟩

/-! ### Loop lemmas for the polling state machine -/

/-- As long as every fetched status is non-terminal, the loop spends its
whole budget: one fetch and one sleep per remaining attempt, ending in the
timeout error. -/
theorem pollLoop_timeout (polls : Nat → Except JsErr PollResponse) :
    ∀ (r i f s : Nat), (∀ j, j < r → nonTerminalPoll (polls (i + j))) →
    pollLoop polls i r f s = ⟨.timeout, f + r, s + r⟩ := by
  intro r
  induction r with
  | zero => intro i f s _; simp [pollLoop]
  | succ r ih =>
    intro i f s h
    obtain ⟨resp, hp, h1, h2, h3⟩ := h 0 (Nat.succ_pos r)
    rw [Nat.add_zero] at hp
    have hstep : ∀ j, j < r → nonTerminalPoll (polls (i + 1 + j)) := by
      intro j hj
      have := h (j + 1) (by omega)
      rwa [show i + (j + 1) = i + 1 + j by omega] at this
    simp only [pollLoop, hp]
    rw [if_neg h1, if_neg (not_or.mpr ⟨h2, h3⟩)]
    rw [ih (i + 1) (f + 1) (s + 1) hstep]
    simp only [WaitTrace.mk.injEq]
    exact ⟨trivial, by omega, by omega⟩

/-- If the first k responses are non-terminal and response k is a failed
or stopped status, the loop throws the failed-or-stopped error right on
attempt k: k + 1 fetches, k sleeps. -/
theorem pollLoop_failedStopped (polls : Nat → Except JsErr PollResponse) (resp : PollResponse) :
    ∀ (k r i f s : Nat), k < r → (∀ j, j < k → nonTerminalPoll (polls (i + j))) →
    polls (i + k) = Except.ok resp →
    (resp.status = some "failed" ∨ resp.status = some "stopped") →
    pollLoop polls i r f s = ⟨.failedStopped (failMsg resp), f + k + 1, s + k⟩ := by
  intro k
  induction k with
  | zero =>
    intro r i f s hk h hp hst
    obtain ⟨r2, rfl⟩ : ∃ r2, r = r2 + 1 := ⟨r - 1, by omega⟩
    rw [Nat.add_zero] at hp
    have hns : resp.status ≠ some "succeeded" := by
      rcases hst with h1 | h1 <;> (rw [h1]; decide)
    simp only [pollLoop, hp]
    rw [if_neg hns, if_pos hst]
    rw [show f + 0 + 1 = f + 1 by omega, show s + 0 = s by omega]
  | succ k ih =>
    intro r i f s hk h hp hst
    obtain ⟨r2, rfl⟩ : ∃ r2, r = r2 + 1 := ⟨r - 1, by omega⟩
    obtain ⟨resp0, hp0, h1, h2, h3⟩ := h 0 (Nat.succ_pos k)
    rw [Nat.add_zero] at hp0
    have hstep : ∀ j, j < k → nonTerminalPoll (polls (i + 1 + j)) := by
      intro j hj
      have := h (j + 1) (by omega)
      rwa [show i + (j + 1) = i + 1 + j by omega] at this
    have hp2 : polls (i + 1 + k) = Except.ok resp := by
      rwa [show i + 1 + k = i + (k + 1) by omega]
    simp only [pollLoop, hp0]
    rw [if_neg h1, if_neg (not_or.mpr ⟨h2, h3⟩)]
    rw [ih r2 (i + 1) (f + 1) (s + 1) (by omega) hstep hp2 hst]
    rw [show f + (k + 1) + 1 = f + 1 + k + 1 by omega, show s + (k + 1) = s + 1 + k by omega]

/-- The loop never loses fetches: the final count dominates the entry
count. -/
theorem pollLoop_fetches_le (polls : Nat → Except JsErr PollResponse) :
    ∀ (r i f s : Nat), f ≤ (pollLoop polls i r f s).fetches := by
  intro r
  induction r with
  | zero => intro i f s; exact Nat.le_refl f
  | succ r ih =>
    intro i f s
    simp only [pollLoop]
    rcases h : polls i with e | resp <;> simp only [h]
    · exact Nat.le_succ f
    · by_cases h1 : resp.status = some "succeeded"
      · rw [if_pos h1]; exact Nat.le_succ f
      · rw [if_neg h1]
        by_cases h2 : resp.status = some "failed" ∨ resp.status = some "stopped"
        · rw [if_pos h2]; exact Nat.le_succ f
        · rw [if_neg h2]
          exact Nat.le_trans (Nat.le_succ f) (ih (i + 1) (f + 1) (s + 1))

/-- With a nonempty run id and a positive attempt budget, the wait always
issues at least one status fetch. -/
theorem waitFor_fetches_pos (polls : Nat → Except JsErr PollResponse)
    (rid : String) (N : Nat) (hrid : rid ≠ "") (hN : 1 ≤ N) :
    1 ≤ (waitForWorkflowCompletion polls (some rid) N).fetches := by
  simp only [waitForWorkflowCompletion]
  rw [if_neg hrid]
  obtain ⟨r, rfl⟩ : ∃ r, N = r + 1 := ⟨N - 1, by omega⟩
  simp only [pollLoop]
  rcases h : polls 0 with e | resp <;> simp only [h]
  · exact Nat.le_refl 1
  · by_cases h1 : resp.status = some "succeeded"
    · rw [if_pos h1]
    · rw [if_neg h1]
      by_cases h2 : resp.status = some "failed" ∨ resp.status = some "stopped"
      · rw [if_pos h2]
      · rw [if_neg h2]
        exact pollLoop_fetches_le polls r 1 1 1

/-! ### Shape lemmas for the pipeline -/

/-- The format-and-send step always hands exactly the formatted document
to the transport, whether or not the transport accepts it. -/
theorem sendStep_fst (c : Clock) (cn : Option String) (send : Nat → Except JsErr Unit)
    (out : JValue) (fetches : Nat) :
    (sendStep c cn send out fetches).1 = [formatReport c cn out] := by
  cases h : send 0 <;> simp [sendStep, h]

/-- The format-and-send step performs no status fetch of its own. -/
theorem sendStep_fetches (c : Clock) (cn : Option String) (send : Nat → Except JsErr Unit)
    (out : JValue) (fetches : Nat) :
    (sendStep c cn send out fetches).2.1 = fetches := by
  cases h : send 0 <;> simp [sendStep, h]

/-- runDailyReport never rejects: every combination of collaborator
behaviours produces a normal return.  This is the formal content of the
catch-everything structure of lines 268 to 296. -/
theorem runDailyReport_total (c : Clock) (cn : Option String)
    (start : Except JsErr StartResponse) (polls : Nat → Except JsErr PollResponse)
    (send : Nat → Except JsErr Unit) :
    ∃ t, runDailyReport c cn start polls send = Except.ok t := by
  rcases h : pipelineTry c cn start polls send with ⟨calls, fetches, oe⟩
  cases oe with
  | none => exact ⟨⟨calls, fetches, none, none⟩, by simp only [runDailyReport, h]⟩
  | some e => exact ⟨handleCatch c send calls fetches e, by simp only [runDailyReport, h]⟩

/-- Before the catch block runs, at most one email was attempted, and it
was a formatted report. -/
theorem pipelineTry_calls (c : Clock) (cn : Option String)
    (start : Except JsErr StartResponse) (polls : Nat → Except JsErr PollResponse)
    (send : Nat → Except JsErr Unit) :
    (pipelineTry c cn start polls send).1 = [] ∨
      ∃ out, (pipelineTry c cn start polls send).1 = [formatReport c cn out] := by
  rcases start with e | resp
  · left; rfl
  · simp only [pipelineTry]
    split
    · right; exact ⟨_, sendStep_fst _ _ _ _ _⟩
    · split
      · split
        all_goals first
          | (left; rfl)
          | (right; exact ⟨_, sendStep_fst _ _ _ _ _⟩)
      · left; rfl

/-- The document template contains its content slot verbatim. -/
theorem htmlDoc_contains_content (date content year company : String) :
    containsStr (htmlDoc date content year company) content := by
  unfold containsStr htmlDoc
  refine ⟨(htmlPartA ++ date ++ htmlPartB).data,
    (htmlPartC ++ year ++ " " ++ company ++ htmlPartD).data, ?_⟩
  simp [String.data_append, List.append_assoc]

/-- The error notification document contains the error message verbatim. -/
theorem errorHtml_contains_message (c : Clock) (e : JsErr) :
    containsStr (errorHtml c e) e.message := by
  unfold containsStr errorHtml
  refine ⟨(errPartA ++ trDateTime c ++ errPartB).data,
    (errPartC ++ detailsOf e ++ errPartD).data, ?_⟩
  simp [String.data_append, List.append_assoc]

set_option maxRecDepth 100000 in
/-- A formatted report document is never the error notification document:
the two templates differ at character position five already. -/
theorem formatReport_ne_errorHtml (c1 : Clock) (cn : Option String) (out : JValue)
    (c2 : Clock) (e : JsErr) :
    formatReport c1 cn out ≠ errorHtml c2 e := by
  intro h
  have h5 : (formatReport c1 cn out).data[5]? = (errorHtml c2 e).data[5]? := by rw [h]
  have hl : (formatReport c1 cn out).data[5]? = some '<' := by
    unfold formatReport htmlDoc
    simp only [String.data_append, List.append_assoc]
    rw [List.getElem?_append_left (by decide)]
    decide
  have hr : (errorHtml c2 e).data[5]? = some ' ' := by
    unfold errorHtml
    simp only [String.data_append, List.append_assoc]
    rw [List.getElem?_append_left (by decide)]
    decide
  rw [hl, hr] at h5
  exact absurd h5 (by decide)

/-- The fetch count of the returned trace is the fetch count accumulated
by the try block; the catch block performs no fetch. -/
theorem runDailyReport_fetches (c : Clock) (cn : Option String)
    (start : Except JsErr StartResponse) (polls : Nat → Except JsErr PollResponse)
    (send : Nat → Except JsErr Unit) (t : PipelineTrace)
    (hok : runDailyReport c cn start polls send = Except.ok t) :
    t.pollFetches = (pipelineTry c cn start polls send).2.1 := by
  rcases h : pipelineTry c cn start polls send with ⟨calls, fetches, oe⟩
  cases oe with
  | none =>
    simp only [runDailyReport, h] at hok
    cases hok
    rfl
  | some e0 =>
    simp only [runDailyReport, h] at hok
    rcases hs : send calls.length with e2 | u <;>
      simp only [handleCatch, hs] at hok <;> cases hok <;> rfl

/-- The caught error of the returned trace is exactly the error that
escaped the try block, if any. -/
theorem runDailyReport_caught (c : Clock) (cn : Option String)
    (start : Except JsErr StartResponse) (polls : Nat → Except JsErr PollResponse)
    (send : Nat → Except JsErr Unit) (t : PipelineTrace)
    (hok : runDailyReport c cn start polls send = Except.ok t) :
    t.caughtError = (pipelineTry c cn start polls send).2.2 := by
  rcases h : pipelineTry c cn start polls send with ⟨calls, fetches, oe⟩
  cases oe with
  | none =>
    simp only [runDailyReport, h] at hok
    cases hok
    rfl
  | some e0 =>
    simp only [runDailyReport, h] at hok
    rcases hs : send calls.length with e2 | u <;>
      simp only [handleCatch, hs] at hok <;> cases hok <;> rfl

/-- On the polling path, the fetch count of the try block is exactly the
fetch count of the wait, whatever the wait ended with. -/
theorem pipelineTry_wait_fetches
    (c : Clock) (cn : Option String) (resp : StartResponse)
    (polls : Nat → Except JsErr PollResponse) (send : Nat → Except JsErr Unit)
    (hcond : ¬((triggerDifyWorkflow resp).status = some "succeeded" ∧
      optTruthy (triggerDifyWorkflow resp).outputs = true))
    (hrid : optStrTruthy (triggerDifyWorkflow resp).runId = true) :
    (pipelineTry c cn (Except.ok resp) polls send).2.1 =
      (waitForWorkflowCompletion polls (triggerDifyWorkflow resp).runId 30).fetches := by
  simp only [pipelineTry]
  rw [if_neg hcond, if_pos hrid]
  rcases hwt : (waitForWorkflowCompletion polls (triggerDifyWorkflow resp).runId 30).outcome
      with _ | res | m | e2 | _
  all_goals simp only [hwt]
  all_goals first
    | rfl
    | apply sendStep_fetches

/-- When the blocking result is not usable and no run id is present, the
try block ends with the invalid-response error of line 256. -/
theorem pipelineTry_invalid
    (c : Clock) (cn : Option String) (resp : StartResponse)
    (polls : Nat → Except JsErr PollResponse) (send : Nat → Except JsErr Unit)
    (hcond : ¬((triggerDifyWorkflow resp).status = some "succeeded" ∧
      optTruthy (triggerDifyWorkflow resp).outputs = true))
    (hrid : optStrTruthy (triggerDifyWorkflow resp).runId = false) :
    (pipelineTry c cn (Except.ok resp) polls send).2.2 =
      some ⟨"Invalid workflow response - no outputs or run ID", none⟩ := by
  simp only [pipelineTry]
  rw [if_neg hcond, if_neg (by simp [hrid])]

/-! ### Claims about waitForWorkflowCompletion -/

/-- C1: for every run whose polled status is a terminal negative status
(failed or stopped) on some attempt k, after non-terminal statuses before
it, waitForWorkflowCompletion fails right on attempt k with the
WorkflowFailed error: exactly k + 1 status fetches (none after that
attempt), exactly k sleeps (no sleep on the failing attempt), and no
success result is returned. -/
theorem awaitCompletion_terminal_negative_fails_immediately
    (polls : Nat → Except JsErr PollResponse) (rid : String) (resp : PollResponse)
    (maxAttempts k : Nat)
    (hrid : rid ≠ "") (hk : k < maxAttempts)
    (hbefore : ∀ j, j < k → nonTerminalPoll (polls j))
    (hp : polls k = Except.ok resp)
    (hst : resp.status = some "failed" ∨ resp.status = some "stopped") :
    waitForWorkflowCompletion polls (some rid) maxAttempts =
      ⟨.failedStopped (failMsg resp), k + 1, k⟩ := by
  simp only [waitForWorkflowCompletion]
  rw [if_neg hrid]
  have h1 : ∀ j, j < k → nonTerminalPoll (polls (0 + j)) := by
    intro j hj; rw [Nat.zero_add]; exact hbefore j hj
  have h2 : polls (0 + k) = Except.ok resp := by rw [Nat.zero_add]; exact hp
  rw [pollLoop_failedStopped polls resp k maxAttempts 0 0 0 hk h1 h2 hst]
  rw [show 0 + k + 1 = k + 1 by omega, show (0:Nat) + k = k by omega]

/-- Witness for C1: a run that reports failed on the first poll makes the
wait throw the WorkflowFailed error after exactly one fetch and no sleep. -/
theorem awaitCompletion_terminal_negative_witness :
    ("r1" ≠ "" ∧ (0:Nat) < 30) ∧
    waitForWorkflowCompletion
        (fun _ => Except.ok ⟨some "failed", none, none, none, some "boom"⟩)
        (some "r1") 30 =
      ⟨.failedStopped "Workflow failed: boom", 1, 0⟩ :=
  ⟨⟨by decide, by decide⟩, by
    have h := awaitCompletion_terminal_negative_fails_immediately
      (fun _ => Except.ok ⟨some "failed", none, none, none, some "boom"⟩) "r1"
      ⟨some "failed", none, none, none, some "boom"⟩ 30 0 (by decide) (by decide)
      (fun j hj => absurd hj (by omega)) rfl (Or.inl rfl)
    exact h⟩

/-- C2: for every maxAttempts N of at least one and a run reported as
running on all N polls, the wait fails with the WorkflowTimeout error
after exactly N status fetches, no more. -/
theorem awaitCompletion_timeout_after_exactly_N_polls
    (polls : Nat → Except JsErr PollResponse) (rid : String) (N : Nat)
    (hrid : rid ≠ "") (_hN : 1 ≤ N)
    (hrun : ∀ i, i < N → ∃ resp, polls i = Except.ok resp ∧ resp.status = some "running") :
    waitForWorkflowCompletion polls (some rid) N = ⟨.timeout, N, N⟩ := by
  simp only [waitForWorkflowCompletion]
  rw [if_neg hrid]
  have h : ∀ j, j < N → nonTerminalPoll (polls (0 + j)) := by
    intro j hj; rw [Nat.zero_add]
    obtain ⟨resp, hp, hs⟩ := hrun j hj
    exact ⟨resp, hp, by rw [hs]; decide, by rw [hs]; decide, by rw [hs]; decide⟩
  rw [pollLoop_timeout polls N 0 0 0 h]
  rw [show (0:Nat) + N = N by omega]

/-- Witness for C2: with a budget of two attempts and a permanently
running run, the wait times out after exactly two fetches. -/
theorem awaitCompletion_timeout_witness :
    ("r1" ≠ "" ∧ (1:Nat) ≤ 2 ∧ ∀ i, i < 2 →
      ∃ resp, (fun _ => (Except.ok ⟨some "running", none, none, none, none⟩ :
            Except JsErr PollResponse)) i
          = Except.ok resp ∧ resp.status = some "running") ∧
    waitForWorkflowCompletion
        (fun _ => Except.ok ⟨some "running", none, none, none, none⟩) (some "r1") 2 =
      ⟨.timeout, 2, 2⟩ :=
  ⟨⟨by decide, by decide, fun i _ => ⟨⟨some "running", none, none, none, none⟩, rfl, rfl⟩⟩,
    awaitCompletion_timeout_after_exactly_N_polls
      (fun _ => Except.ok ⟨some "running", none, none, none, none⟩) "r1" 2
      (by decide) (by decide)
      (fun i _ => ⟨⟨some "running", none, none, none, none⟩, rfl, rfl⟩)⟩

/-- C6: for every empty or absent run identifier the wait returns
immediately with the null result, performing zero status fetches and zero
sleeps. -/
theorem awaitCompletion_empty_runId_noop
    (polls : Nat → Except JsErr PollResponse) (rid : Option String) (N : Nat)
    (h : rid = none ∨ rid = some "") :
    waitForWorkflowCompletion polls rid N = ⟨.noRunId, 0, 0⟩ := by
  rcases h with h | h <;> subst h <;> simp [waitForWorkflowCompletion]

/-- Witness for C6: the empty-string run id short-circuits even though the
status endpoint would fail every fetch. -/
theorem awaitCompletion_empty_runId_witness :
    ((some "" : Option String) = none ∨ (some "" : Option String) = some "") ∧
    waitForWorkflowCompletion (fun _ => Except.error ⟨"unreachable", none⟩) (some "") 30 =
      ⟨.noRunId, 0, 0⟩ :=
  ⟨Or.inr rfl,
    awaitCompletion_empty_runId_noop (fun _ => Except.error ⟨"unreachable", none⟩)
      (some "") 30 (Or.inr rfl)⟩

/-- C9: any polled status other than succeeded, failed or stopped,
including an absent one, is treated exactly like running: the loop sleeps
and re-polls on every attempt (N sleeps for N fetches), and a run that
forever reports an unrecognized status ends in the WorkflowTimeout error
and no other outcome. -/
theorem unknown_status_treated_as_running_timeout
    (polls : Nat → Except JsErr PollResponse) (rid : String) (N : Nat)
    (hrid : rid ≠ "")
    (hunk : ∀ i, i < N → ∃ resp, polls i = Except.ok resp ∧
      resp.status ≠ some "succeeded" ∧ resp.status ≠ some "failed" ∧
      resp.status ≠ some "stopped") :
    waitForWorkflowCompletion polls (some rid) N = ⟨.timeout, N, N⟩ := by
  simp only [waitForWorkflowCompletion]
  rw [if_neg hrid]
  have h : ∀ j, j < N → nonTerminalPoll (polls (0 + j)) := by
    intro j hj; rw [Nat.zero_add]; exact hunk j hj
  rw [pollLoop_timeout polls N 0 0 0 h]
  rw [show (0:Nat) + N = N by omega]

/-- Witness for C9: a status endpoint that never includes a status field
drives the wait into the timeout error after its full budget. -/
theorem unknown_status_witness :
    ("r1" ≠ "" ∧ (∀ i, i < 2 →
      ∃ resp, (fun _ => (Except.ok ⟨none, none, none, none, none⟩ :
            Except JsErr PollResponse)) i
          = Except.ok resp ∧ resp.status ≠ some "succeeded" ∧
          resp.status ≠ some "failed" ∧ resp.status ≠ some "stopped")) ∧
    waitForWorkflowCompletion
        (fun _ => Except.ok ⟨none, none, none, none, none⟩) (some "r1") 2 =
      ⟨.timeout, 2, 2⟩ :=
  ⟨⟨by decide, fun i _ => ⟨⟨none, none, none, none, none⟩, rfl, by decide, by decide, by decide⟩⟩,
    unknown_status_treated_as_running_timeout
      (fun _ => Except.ok ⟨none, none, none, none, none⟩) "r1" 2 (by decide)
      (fun i _ => ⟨⟨none, none, none, none, none⟩, rfl, by decide, by decide, by decide⟩)⟩

/-! ### Claims about the orchestrator and the trigger endpoint -/

/-- C4: whenever a pipeline invocation fails anywhere (workflow start,
polling, or delivery), the orchestrator catches the error and attempts
exactly one error-notification delivery: the notifier call sequence is the
at-most-one report attempt followed by exactly one error document, that
document contains the error message text, and this holds for every
behaviour of the error delivery itself, whose failure is only recorded,
never raised. -/
theorem orchestrator_error_notification
    (c : Clock) (cn : Option String) (start : Except JsErr StartResponse)
    (polls : Nat → Except JsErr PollResponse) (send : Nat → Except JsErr Unit)
    (t : PipelineTrace) (e : JsErr)
    (hok : runDailyReport c cn start polls send = Except.ok t)
    (herr : t.caughtError = some e) :
    (∃ pre, t.notifierCalls = pre ++ [errorHtml c e] ∧
      (pre = [] ∨ ∃ out, pre = [formatReport c cn out])) ∧
    t.notifierCalls.count (errorHtml c e) = 1 ∧
    containsStr (errorHtml c e) e.message := by
  have hcalls := pipelineTry_calls c cn start polls send
  rcases h : pipelineTry c cn start polls send with ⟨calls, fetches, oe⟩
  rw [h] at hcalls
  cases oe with
  | none =>
    simp only [runDailyReport, h] at hok
    cases hok
    simp at herr
  | some e0 =>
    simp only [runDailyReport, h] at hok
    rcases hs : send calls.length with e2 | u <;>
      simp only [handleCatch, hs] at hok <;>
      cases hok <;>
      simp only at herr
    case _ =>
      have he : e0 = e := Option.some.inj herr
      subst he
      refine ⟨⟨calls, rfl, hcalls⟩, ?_, errorHtml_contains_message c e0⟩
      rcases hcalls with hc | ⟨out, hc⟩ <;> subst hc
      · simp [List.count_append, List.count_cons, List.count_nil]
      · have hne : (formatReport c cn out == errorHtml c e0) = false :=
          beq_eq_false_iff_ne.mpr (formatReport_ne_errorHtml c cn out c e0)
        simp [List.count_append, List.count_cons, List.count_nil, hne]
    case _ =>
      have he : e0 = e := Option.some.inj herr
      subst he
      refine ⟨⟨calls, rfl, hcalls⟩, ?_, errorHtml_contains_message c e0⟩
      rcases hcalls with hc | ⟨out, hc⟩ <;> subst hc
      · simp [List.count_append, List.count_cons, List.count_nil]
      · have hne : (formatReport c cn out == errorHtml c e0) = false :=
          beq_eq_false_iff_ne.mpr (formatReport_ne_errorHtml c cn out c e0)
        simp [List.count_append, List.count_cons, List.count_nil, hne]

/-- Witness for C4: a failing workflow start leads to exactly one notifier
call, carrying the error document with the message text. -/
theorem orchestrator_error_notification_witness :
    (runDailyReport sampleClock none (Except.error startFailure) pollsRunning sendOk =
        Except.ok traceStartFailure ∧
      traceStartFailure.caughtError = some startFailure) ∧
    ((∃ pre, traceStartFailure.notifierCalls = pre ++ [errorHtml sampleClock startFailure] ∧
        (pre = [] ∨ ∃ out, pre = [formatReport sampleClock none out])) ∧
      traceStartFailure.notifierCalls.count (errorHtml sampleClock startFailure) = 1 ∧
      containsStr (errorHtml sampleClock startFailure) startFailure.message) :=
  ⟨⟨rfl, rfl⟩,
    orchestrator_error_notification sampleClock none (Except.error startFailure) pollsRunning
      sendOk traceStartFailure startFailure rfl rfl⟩

/-- C5: if the initial run request returns a blocking-mode result whose
status is succeeded and whose outputs are present (truthy), the pipeline
uses that result directly: zero status fetches happen and the first
notifier call is the report formatted from that very result. -/
theorem blocking_success_skips_polling
    (c : Clock) (cn : Option String) (resp : StartResponse)
    (polls : Nat → Except JsErr PollResponse) (send : Nat → Except JsErr Unit)
    (d : StartData) (v : JValue) (t : PipelineTrace)
    (hd : resp.data = some d) (hs : d.status = some "succeeded")
    (ho : d.outputs = some v) (hv : v.truthy = true)
    (hok : runDailyReport c cn (Except.ok resp) polls send = Except.ok t) :
    t.pollFetches = 0 ∧
    t.notifierCalls.head? =
      some (formatReport c cn (triggerDifyWorkflow resp).toJValue) := by
  have htr : triggerDifyWorkflow resp = .blocking resp.workflow_run_id (some v) := by
    simp [triggerDifyWorkflow, hd, hs, ho]
  have hcond : (triggerDifyWorkflow resp).status = some "succeeded" ∧
      optTruthy (triggerDifyWorkflow resp).outputs = true := by
    rw [htr]
    exact ⟨rfl, by simp [TriggerResult.outputs, optTruthy, hv]⟩
  have hpt : pipelineTry c cn (Except.ok resp) polls send =
      sendStep c cn send (triggerDifyWorkflow resp).toJValue 0 := by
    simp only [pipelineTry]
    rw [if_pos hcond]
  rcases hs0 : send 0 with e0 | u
  · have hss : sendStep c cn send (triggerDifyWorkflow resp).toJValue 0 =
        ([formatReport c cn (triggerDifyWorkflow resp).toJValue], 0, some e0) := by
      simp [sendStep, hs0]
    simp only [runDailyReport, hpt, hss] at hok
    rcases hs1 : send 1 with e1 | u1 <;>
      simp only [handleCatch, List.length_singleton, hs1] at hok <;>
      cases hok <;> exact ⟨rfl, rfl⟩
  · have hss : sendStep c cn send (triggerDifyWorkflow resp).toJValue 0 =
        ([formatReport c cn (triggerDifyWorkflow resp).toJValue], 0, none) := by
      simp [sendStep, hs0]
    simp only [runDailyReport, hpt, hss] at hok
    cases hok
    exact ⟨rfl, rfl⟩

/-- Witness for C5: a blocking succeeded response with a truthy text
output is delivered directly, with zero polls. -/
theorem blocking_success_witness :
    (respTextHi.data = some ⟨some "succeeded", some (.obj (.cons "text" (.str "hi") .nil))⟩ ∧
      (⟨some "succeeded", some (.obj (.cons "text" (.str "hi") .nil))⟩ : StartData).status =
        some "succeeded" ∧
      (⟨some "succeeded", some (.obj (.cons "text" (.str "hi") .nil))⟩ : StartData).outputs =
        some (.obj (.cons "text" (.str "hi") .nil)) ∧
      (JValue.obj (.cons "text" (.str "hi") .nil)).truthy = true ∧
      runDailyReport sampleClock none (Except.ok respTextHi) pollsRunning sendOk =
        Except.ok traceTextHi) ∧
    (traceTextHi.pollFetches = 0 ∧
      traceTextHi.notifierCalls.head? =
        some (formatReport sampleClock none (triggerDifyWorkflow respTextHi).toJValue)) :=
  ⟨⟨rfl, rfl, rfl, rfl, rfl⟩,
    blocking_success_skips_polling sampleClock none respTextHi pollsRunning sendOk
      ⟨some "succeeded", some (.obj (.cons "text" (.str "hi") .nil))⟩
      (.obj (.cons "text" (.str "hi") .nil)) traceTextHi rfl rfl rfl rfl rfl⟩

/-- C3 counterexample: a pipeline invocation that fails (the workflow
start rejects, and the trace records the caught error) still gets the 200
success response from the manual trigger endpoint, not a 500: the
orchestrator swallowed the error before the handler could see it. -/
theorem trigger_endpoint_counterexample :
    runDailyReport sampleClock none (Except.error startFailure) pollsRunning sendOk =
      Except.ok traceStartFailure ∧
    (triggerEndpoint sampleClock none (Except.error startFailure) pollsRunning sendOk).status
      = 200 :=
  ⟨rfl, rfl⟩

/-- C3 amended: the manual trigger endpoint answers 200 with the success
body on every invocation, also failing ones, because runDailyReport
catches every error internally and never rejects; the 500 branch of the
handler is unreachable. -/
theorem trigger_endpoint_always_200
    (c : Clock) (cn : Option String) (start : Except JsErr StartResponse)
    (polls : Nat → Except JsErr PollResponse) (send : Nat → Except JsErr Unit) :
    (triggerEndpoint c cn start polls send).status = 200 ∧
    (triggerEndpoint c cn start polls send).body =
      "\x7b\"status\":\"Report sent successfully\"\x7d" := by
  obtain ⟨t, ht⟩ := runDailyReport_total c cn start polls send
  have he : triggerEndpoint c cn start polls send =
      ⟨200, "\x7b\"status\":\"Report sent successfully\"\x7d"⟩ := by
    simp only [triggerEndpoint, ht]
  rw [he]
  exact ⟨rfl, rfl⟩

/-- C10 counterexample: a blocking-mode succeeded response whose outputs
field is the empty object, with a run identifier present, is used directly
as the pipeline result: the empty object is truthy in JavaScript, so no
polling happens and the report formatted from that result is delivered. -/
theorem blocking_empty_outputs_counterexample :
    (JValue.obj .nil).truthy = true ∧
    runDailyReport sampleClock none
        (Except.ok ⟨some "r1", none, some ⟨some "succeeded", some (.obj .nil)⟩⟩)
        pollsRunning sendOk =
      Except.ok ⟨[formatReport sampleClock none
        (TriggerResult.blocking (some "r1") (some (.obj .nil))).toJValue], 0, none, none⟩ :=
  ⟨rfl, rfl⟩

/-- C10 amended: a blocking-mode succeeded response whose outputs field is
absent or otherwise falsy (undefined, null, empty string, zero) is never
used as the pipeline result: with a truthy run identifier the pipeline
falls through to polling that run (its fetch count is the polling fetch
count, at least one), and with no run identifier it fails with the
invalid-response error.  An empty outputs object does not qualify: it is
truthy and is used directly. -/
theorem blocking_falsy_outputs_not_used
    (c : Clock) (cn : Option String) (resp : StartResponse)
    (polls : Nat → Except JsErr PollResponse) (send : Nat → Except JsErr Unit)
    (d : StartData) (t : PipelineTrace)
    (hd : resp.data = some d) (hs : d.status = some "succeeded")
    (ho : optTruthy d.outputs = false)
    (hok : runDailyReport c cn (Except.ok resp) polls send = Except.ok t) :
    (optStrTruthy resp.workflow_run_id = true →
      t.pollFetches = (waitForWorkflowCompletion polls resp.workflow_run_id 30).fetches ∧
        1 ≤ t.pollFetches) ∧
    (optStrTruthy resp.workflow_run_id = false →
      t.caughtError = some ⟨"Invalid workflow response - no outputs or run ID", none⟩) := by
  have htr : triggerDifyWorkflow resp = .blocking resp.workflow_run_id d.outputs := by
    simp [triggerDifyWorkflow, hd, hs]
  have hcond : ¬((triggerDifyWorkflow resp).status = some "succeeded" ∧
      optTruthy (triggerDifyWorkflow resp).outputs = true) := by
    rw [htr]
    rintro ⟨h1, h2⟩
    simp only [TriggerResult.outputs] at h2
    rw [ho] at h2
    exact Bool.false_ne_true h2
  have hrid_eq : (triggerDifyWorkflow resp).runId = resp.workflow_run_id := by
    rw [htr]
    exact rfl
  constructor
  · intro h
    have hrid : optStrTruthy (triggerDifyWorkflow resp).runId = true := by
      rw [hrid_eq]; exact h
    have h1 := runDailyReport_fetches c cn (Except.ok resp) polls send t hok
    have h2 := pipelineTry_wait_fetches c cn resp polls send hcond hrid
    rw [h1, h2, hrid_eq]
    refine ⟨rfl, ?_⟩
    rcases hw : resp.workflow_run_id with _ | rid
    · rw [hw] at h; simp [optStrTruthy] at h
    · rw [hw] at h
      have hne : rid ≠ "" := by
        intro hrfl; subst hrfl
        exact absurd h (by decide)
      exact waitFor_fetches_pos polls rid 30 hne (by omega)
  · intro h
    have hrid : optStrTruthy (triggerDifyWorkflow resp).runId = false := by
      rw [hrid_eq]; exact h
    have h1 := runDailyReport_caught c cn (Except.ok resp) polls send t hok
    rw [h1, pipelineTry_invalid c cn resp polls send hcond hrid]

/-- Witness for the amended C10: a succeeded blocking response with absent
outputs and no run identifier ends in the invalid-response error. -/
theorem blocking_falsy_outputs_witness :
    (respNoOutputs.data = some ⟨some "succeeded", none⟩ ∧
      (⟨some "succeeded", none⟩ : StartData).status = some "succeeded" ∧
      optTruthy (⟨some "succeeded", none⟩ : StartData).outputs = false ∧
      runDailyReport sampleClock none (Except.ok respNoOutputs) pollsRunning sendOk =
        Except.ok traceInvalid) ∧
    ((optStrTruthy respNoOutputs.workflow_run_id = true →
        traceInvalid.pollFetches =
          (waitForWorkflowCompletion pollsRunning respNoOutputs.workflow_run_id 30).fetches ∧
          1 ≤ traceInvalid.pollFetches) ∧
      (optStrTruthy respNoOutputs.workflow_run_id = false →
        traceInvalid.caughtError =
          some ⟨"Invalid workflow response - no outputs or run ID", none⟩)) :=
  ⟨⟨rfl, rfl, rfl, rfl⟩,
    blocking_falsy_outputs_not_used sampleClock none respNoOutputs pollsRunning sendOk
      ⟨some "succeeded", none⟩ traceInvalid rfl rfl rfl rfl⟩

/-! ### Claims about formatReport -/

/-- C7: the formatter extracts the report body by the fixed key priority,
stopping at the first match.  With output containing text Hello the
document body slot is exactly Hello, contained verbatim, and no serialized
fallback is produced; with an output carrying no recognized text field the
body slot is the pre-formatted JSON serialization of the whole mapping,
shown here concretely. -/
theorem formatReport_key_priority (c : Clock) (cn : Option String) :
    formatReport c cn (.obj (.cons "text" (.str "Hello") .nil)) =
      htmlDoc (trDateLong c) "Hello" (toString c.year) (companyDisplay cn) ∧
    containsStr (formatReport c cn (.obj (.cons "text" (.str "Hello") .nil))) "Hello" ∧
    formatReport c cn (.obj (.cons "other" (.num 1) .nil)) =
      htmlDoc (trDateLong c)
        ("<pre>" ++ stringifyVal true 0 (.obj (.cons "other" (.num 1) .nil)) ++ "</pre>")
        (toString c.year) (companyDisplay cn) ∧
    stringifyVal true 0 (.obj (.cons "other" (.num 1) .nil)) = "\x7b\n  \"other\": 1\n\x7d" :=
  ⟨rfl, htmlDoc_contains_content (trDateLong c) "Hello" (toString c.year) (companyDisplay cn),
    rfl, rfl⟩

/-- C8: the formatter is deterministic and depends on the ambient clock
only through the calendar date: two invocations on the same output mapping
under clocks agreeing on day, month and year produce the identical
document, whatever the time of day; the embedding performs no other
effect. -/
theorem formatReport_deterministic
    (c1 c2 : Clock) (cn : Option String) (v : JValue)
    (hd : c1.day = c2.day) (hm : c1.month = c2.month) (hy : c1.year = c2.year) :
    formatReport c1 cn v = formatReport c2 cn v := by
  unfold formatReport trDateLong
  rw [hd, hm, hy]

/-- Witness for C8: morning and near-midnight clocks of the same day give
the byte-identical document. -/
theorem formatReport_deterministic_witness :
    ((⟨12, 10, 2025, 6, 0, 0⟩ : Clock).day = (⟨12, 10, 2025, 23, 59, 59⟩ : Clock).day ∧
      (⟨12, 10, 2025, 6, 0, 0⟩ : Clock).month = (⟨12, 10, 2025, 23, 59, 59⟩ : Clock).month ∧
      (⟨12, 10, 2025, 6, 0, 0⟩ : Clock).year = (⟨12, 10, 2025, 23, 59, 59⟩ : Clock).year) ∧
    formatReport ⟨12, 10, 2025, 6, 0, 0⟩ none (.str "x") =
      formatReport ⟨12, 10, 2025, 23, 59, 59⟩ none (.str "x") :=
  ⟨⟨rfl, rfl, rfl⟩,
    formatReport_deterministic ⟨12, 10, 2025, 6, 0, 0⟩ ⟨12, 10, 2025, 23, 59, 59⟩ none
      (.str "x") rfl rfl rfl⟩
